import Mathlib

/-!
Shallow embedding of the core of the YouGile MCP server: the HTTP client
with retry/backoff (`src/core/client.py`), the authentication manager
(`src/core/auth.py`) and the exception taxonomy (`src/core/exceptions.py`).

Pure data (headers, JSON bodies, exception objects) is modelled directly.
The network is abstracted as a function `oc : Nat → AttemptOutcome` giving,
for one fixed logical request, what the transport does on each 0-based
attempt index: deliver a response, raise `httpx.TimeoutException`, or raise
`httpx.NetworkError`.  Raised Python exceptions become values of
`RequestResult`; the backoff sleeps are recorded as a list of delays.
-/

/-- JSON values, as produced by the HTTP library's body decoder
(`response.json()`).  An object is an association list of key/value pairs
(a decoded Python `dict`; keys produced by a JSON decoder are distinct). -/
inductive Json where
  | null : Json
  | bool : Bool → Json
  | num : Int → Json
  | str : String → Json
  | arr : List Json → Json
  | obj : List (String × Json) → Json

/-- The exception classes of `src/core/exceptions.py`.  All derive from the
base class `YouGileError` (modelled by `ExcKind.generic`). -/
inductive ExcKind where
  | generic
  | authentication
  | authorization
  | rateLimit
  | validation
  | notFound
deriving DecidableEq

/-- The fields every `YouGileError` carries: `message`, optional
`status_code`, and a `details` map (`details or {}` in the constructor).
The message is a `Json` value because `_handle_response` passes whatever
`error_data.get("error", ...)` returns. -/
structure YouGileExc where
  kind : ExcKind
  message : Json
  status_code : Option Nat
  details : Json

/-- `YouGileError(message, status_code=None, details=None)`. -/
def mkYouGileError (m : Json) (code : Option Nat) (d : Json) : YouGileExc :=
  ⟨.generic, m, code, d⟩

/-- `AuthenticationError(message)`: `status_code` is always 401. -/
def mkAuthenticationError (m : Json) : YouGileExc :=
  ⟨.authentication, m, some 401, .obj []⟩

/-- `AuthorizationError(message)`: `status_code` is always 403. -/
def mkAuthorizationError (m : Json) : YouGileExc :=
  ⟨.authorization, m, some 403, .obj []⟩

/-- `RateLimitError(message)`: `status_code` is always 429. -/
def mkRateLimitError (m : Json) : YouGileExc :=
  ⟨.rateLimit, m, some 429, .obj []⟩

/-- `NotFoundError(message)`: `status_code` is always 404. -/
def mkNotFoundError (m : Json) : YouGileExc :=
  ⟨.notFound, m, some 404, .obj []⟩

/-- `ValidationError(message)`: `status_code` is always 400. -/
def mkValidationError (m : String) : YouGileExc :=
  ⟨.validation, .str m, some 400, .obj []⟩

/-- Python `str.strip()`: remove leading and trailing whitespace
(whitespace modelled by `Char.isWhitespace`). -/
def pyStrip (s : String) : String :=
  ⟨((s.data.dropWhile Char.isWhitespace).reverse.dropWhile Char.isWhitespace).reverse⟩

/-- Helper for `strStartsWith`: is the first list a head segment of the
second? -/
def startsWithAux : List Char → List Char → Bool
  | [], _ => true
  | _ :: _, [] => false
  | a :: as, b :: bs => a == b && startsWithAux as bs

/-- Python `str.startswith`: codepoint-wise test that `pre` begins `s`. -/
def strStartsWith (s pre : String) : Bool := startsWithAux pre.data s.data

/-- Python truthiness of an optional string: `None` and `""` are falsy. -/
def truthy : Option String → Bool
  | none => false
  | some s => decide (s ≠ "")

/-- The mutable state of an `AuthManager`: `self._api_key` and
`self._company_id`. -/
structure AuthState where
  api_key : Option String
  company_id : Option String
deriving DecidableEq

namespace AuthManager

/-- `AuthManager.__init__` as invoked everywhere in the repository (always
without arguments): both fields start unset. -/
def init : AuthState := ⟨none, none⟩

/-- `AuthManager.set_credentials`.  Both validation checks
(`not api_key or not api_key.strip()`, then the same for `company_id`)
precede both field assignments in the source, so a raised `ValidationError`
leaves the state unchanged (the caller keeps the old `AuthState`). -/
def set_credentials (st : AuthState) (api_key company_id : String) :
    Except YouGileExc AuthState :=
  if api_key = "" ∨ pyStrip api_key = "" then
    .error (mkValidationError "API key cannot be empty")
  else if company_id = "" ∨ pyStrip company_id = "" then
    .error (mkValidationError "Company ID cannot be empty")
  else
    .ok ⟨some (pyStrip api_key), some (pyStrip company_id)⟩

/-- `AuthManager.clear_credentials`: reset both fields to `None`. -/
def clear_credentials (_st : AuthState) : AuthState := ⟨none, none⟩

/-- `AuthManager.is_authenticated`: `bool(self._api_key and self._company_id)`. -/
def is_authenticated (st : AuthState) : Bool :=
  truthy st.api_key && truthy st.company_id

/-- `AuthManager.get_auth_headers`: raise `AuthenticationError` when
`not self._api_key`, else the Bearer header triple. -/
def get_auth_headers (st : AuthState) : Except YouGileExc (List (String × String)) :=
  if !truthy st.api_key then
    .error (mkAuthenticationError (.str "No API key configured"))
  else
    .ok [("Authorization", "Bearer " ++ st.api_key.getD ""),
         ("Content-Type", "application/json"),
         ("Accept", "application/json")]

/-- `AuthManager.get_basic_headers`: unconditional JSON headers. -/
def get_basic_headers : List (String × String) :=
  [("Content-Type", "application/json"), ("Accept", "application/json")]

end AuthManager

/-- Credential states reachable in the repository: every `AuthManager` is
constructed without arguments (`AuthManager()` at `core/__init__.py`,
`core/auth.py`, `core/client.py`, `tools/auth_tools.py`) and then mutated
only through `set_credentials` and `clear_credentials`; a `set_credentials`
call that raises leaves the state where it was. -/
inductive Reachable : AuthState → Prop where
  | init : Reachable AuthManager.init
  | set (st st' : AuthState) (a c : String) : Reachable st →
      AuthManager.set_credentials st a c = .ok st' → Reachable st'
  | clear (st : AuthState) : Reachable st →
      Reachable (AuthManager.clear_credentials st)

/-- One HTTP response as the client sees it: status code, the result of
decoding the body (`none` when `response.json()` raises `ValueError`), and
the raw text. -/
structure Resp where
  status_code : Nat
  body : Option Json
  text : String

/-- What the transport does on one attempt: deliver a response, raise
`httpx.TimeoutException`, or raise `httpx.NetworkError` (with its
`str(e)` detail). -/
inductive AttemptOutcome where
  | response : Resp → AttemptOutcome
  | timeout : AttemptOutcome
  | netError : String → AttemptOutcome

/-- The two outcome classes caught by the retry loop's `except` clauses. -/
def AttemptOutcome.isTransportFailure : AttemptOutcome → Bool
  | .response _ => false
  | .timeout => true
  | .netError _ => true

/-- What a call to `request` produces: a returned decoded body, a raised
`YouGileError` (or subclass), a raised Python-level error such as
`AttributeError`, or the raised `RuntimeError` of an uninitialized client. -/
inductive RequestResult where
  | ok : Json → RequestResult
  | exc : YouGileExc → RequestResult
  | pyError : String → RequestResult
  | runtimeError : String → RequestResult

/-- The backoff delays `2 ^ start, 2 ^ (start + 1), …` slept by `n`
consecutive failing attempts starting at attempt index `start`. -/
def backoffDelays (start n : Nat) : List Nat :=
  (List.range n).map (fun k => 2 ^ (start + k))

/-- Modelled from the spec: the status-to-error-kind table of §8 ("For all
status codes in {401,403,404,429}, `request()` raises the corresponding
typed error with status_code set to that code … For all other non-2xx
codes, `request()` raises the generic error with status_code preserved and
`details` containing the raw error payload"), given the extracted message
`m` and the raw error payload `d`.  Used to compare `_handle_response`
against the spec's words. -/
def classifyStatus (status : Nat) (m : Json) (d : Json) : RequestResult :=
  if status = 401 then .exc (mkAuthenticationError m)
  else if status = 403 then .exc (mkAuthorizationError m)
  else if status = 404 then .exc (mkNotFoundError m)
  else if status = 429 then .exc (mkRateLimitError m)
  else .exc (mkYouGileError m (some status) d)

namespace settings

/-- `Settings.yougile_max_retries` default. -/
def yougile_max_retries : Nat := 3

/-- `Settings.yougile_timeout` default (time units). -/
def yougile_timeout : Nat := 30

end settings

namespace YouGileClient

/-- `YouGileError("Request timeout")`, raised when the last attempt times
out: default `status_code=None`, `details={}`. -/
def requestTimeoutError : YouGileExc :=
  mkYouGileError (.str "Request timeout") none (.obj [])

/-- `YouGileError(f"Network error: {str(e)}")`, raised when the last
attempt fails with `httpx.NetworkError`. -/
def networkFailureError (d : String) : YouGileExc :=
  mkYouGileError (.str ("Network error: " ++ d)) none (.obj [])

/-- `YouGileError("Max retries exceeded")`, the statement after the loop. -/
def maxRetriesExceededError : YouGileExc :=
  mkYouGileError (.str "Max retries exceeded") none (.obj [])

/-- `YouGileClient._handle_response`.  For 200/201 return the decoded body,
falling back to `{"success": True, "data": response.text}` on a decode
failure.  Otherwise build `error_data` (the decoded payload, or the
synthesized `{"error": response.text or "HTTP <code>"}`), read
`error_data.get("error", f"HTTP {code}")` and classify by status.  When the
error payload decodes to a non-dict value, `error_data.get` raises
`AttributeError` (the Python message names the value's type, which we do
not track). -/
def handle_response (r : Resp) : RequestResult :=
  if r.status_code = 200 || r.status_code = 201 then
    match r.body with
    | some j => .ok j
    | none => .ok (.obj [("success", .bool true), ("data", .str r.text)])
  else
    let error_data : Json :=
      match r.body with
      | some j => j
      | none => .obj [("error", .str (if r.text = "" then
          "HTTP " ++ toString r.status_code else r.text))]
    match error_data with
    | .obj kvs =>
      let error_message : Json :=
        (kvs.lookup "error").getD (.str ("HTTP " ++ toString r.status_code))
      if r.status_code = 401 then .exc (mkAuthenticationError error_message)
      else if r.status_code = 403 then .exc (mkAuthorizationError error_message)
      else if r.status_code = 404 then .exc (mkNotFoundError error_message)
      else if r.status_code = 429 then .exc (mkRateLimitError error_message)
      else .exc (mkYouGileError error_message (some r.status_code) error_data)
    | _ => .pyError "AttributeError: no attribute get"

/-- The path-normalization step of `YouGileClient.request`:
`full_url = f"/api-v2{path}" if not path.startswith("/api-v2") else path`. -/
def normalize_path (path : String) : String :=
  if !strStartsWith path "/api-v2" then "/api-v2" ++ path else path

/-- The header-selection step of `YouGileClient.request`: basic headers for
the auth-bootstrap path family, `get_auth_headers` (which may raise)
otherwise. -/
def selectHeaders (auth : AuthState) (path : String) :
    Except YouGileExc (List (String × String)) :=
  if strStartsWith path "/auth/" || strStartsWith path "/api-v2/auth/" then
    .ok AuthManager.get_basic_headers
  else
    AuthManager.get_auth_headers auth

/-- Outcome, backoff delays slept (in order), and number of attempts made. -/
structure RunResult where
  result : RequestResult
  delays : List Nat
  attempts : Nat

/-- The `for attempt in range(max_retries + 1)` loop of
`YouGileClient.request`, as recursion on the iterations left (`fuel`);
`attempt` is the current 0-based attempt index.  A delivered response is
returned through `_handle_response` (whose raised exceptions are not caught
by the loop's `except` clauses); a transport failure on the last attempt
raises; otherwise the loop sleeps `2 ** attempt` and continues.  Running
out of fuel is the fall-through to `raise YouGileError("Max retries
exceeded")` after the loop. -/
def requestLoop (oc : Nat → AttemptOutcome) (max_retries : Nat) :
    Nat → Nat → RunResult
  | _, 0 => ⟨.exc maxRetriesExceededError, [], 0⟩
  | attempt, fuel + 1 =>
    match oc attempt with
    | .response r => ⟨handle_response r, [], 1⟩
    | .timeout =>
      if attempt = max_retries then ⟨.exc requestTimeoutError, [], 1⟩
      else
        ⟨(requestLoop oc max_retries (attempt + 1) fuel).result,
         2 ^ attempt :: (requestLoop oc max_retries (attempt + 1) fuel).delays,
         (requestLoop oc max_retries (attempt + 1) fuel).attempts + 1⟩
    | .netError d =>
      if attempt = max_retries then ⟨.exc (networkFailureError d), [], 1⟩
      else
        ⟨(requestLoop oc max_retries (attempt + 1) fuel).result,
         2 ^ attempt :: (requestLoop oc max_retries (attempt + 1) fuel).delays,
         (requestLoop oc max_retries (attempt + 1) fuel).attempts + 1⟩

/-- The retry loop as entered by `request`: attempt index 0 with the full
`range(max_retries + 1)` iteration budget. -/
def runRetryLoop (oc : Nat → AttemptOutcome) (max_retries : Nat) : RunResult :=
  requestLoop oc max_retries 0 (max_retries + 1)

/-- `YouGileClient.request`: the `RuntimeError` guard for a client whose
pool was not opened by the context manager, then header selection (which
may raise before any attempt), path normalization, then the retry loop.
`method` and the url only parametrize the abstracted network `oc`. -/
def request (initialized : Bool) (auth : AuthState) (method path : String)
    (max_retries : Nat) (oc : Nat → AttemptOutcome) : RunResult :=
  if !initialized then
    ⟨.runtimeError "Client not initialized. Use 'async with' context manager.",
     [], 0⟩
  else
    match selectHeaders auth path with
    | .error e => ⟨.exc e, [], 0⟩
    | .ok _headers =>
      let _full_url := normalize_path path
      runRetryLoop oc max_retries

/-- `YouGileClient.get`. -/
def get (initialized : Bool) (auth : AuthState) (path : String)
    (max_retries : Nat) (oc : Nat → AttemptOutcome) : RunResult :=
  request initialized auth "GET" path max_retries oc

/-- `YouGileClient.post`. -/
def post (initialized : Bool) (auth : AuthState) (path : String)
    (max_retries : Nat) (oc : Nat → AttemptOutcome) : RunResult :=
  request initialized auth "POST" path max_retries oc

/-- `YouGileClient.put`. -/
def put (initialized : Bool) (auth : AuthState) (path : String)
    (max_retries : Nat) (oc : Nat → AttemptOutcome) : RunResult :=
  request initialized auth "PUT" path max_retries oc

/-- `YouGileClient.delete`. -/
def delete (initialized : Bool) (auth : AuthState) (path : String)
    (max_retries : Nat) (oc : Nat → AttemptOutcome) : RunResult :=
  request initialized auth "DELETE" path max_retries oc

end YouGileClient

open YouGileClient

/-! ### Helper lemmas -/

theorem startsWithAux_append_self (l t : List Char) :
    startsWithAux l (l ++ t) = true := by
  induction l with
  | nil => rfl
  | cons a as ih => simp [startsWithAux, ih]

theorem strStartsWith_append (pre p : String) :
    strStartsWith (pre ++ p) pre = true := by
  unfold strStartsWith
  rw [String.data_append]
  exact startsWithAux_append_self _ _

theorem pyStrip_empty : pyStrip "" = "" := rfl

theorem pyStrip_cond (a : String) : (a = "" ∨ pyStrip a = "") ↔ pyStrip a = "" := by
  constructor
  · rintro (rfl | h)
    · rfl
    · exact h
  · exact Or.inr

theorem backoffDelays_zero (n : Nat) :
    backoffDelays 0 n = (List.range n).map (fun k => 2 ^ k) := by
  unfold backoffDelays
  apply List.map_congr_left
  intro k _
  simp

theorem backoffDelays_succ (start n : Nat) :
    backoffDelays start (n + 1) = 2 ^ start :: backoffDelays (start + 1) n := by
  simp only [backoffDelays, List.range_succ_eq_map, List.map_cons, List.map_map]
  refine congrArg₂ List.cons (by simp) ?_
  apply List.map_congr_left
  intro k _
  simp only [Function.comp_apply]
  congr 1
  omega

theorem requestLoop_attempts_le (oc : Nat → AttemptOutcome) (mr : Nat) :
    ∀ fuel attempt, (requestLoop oc mr attempt fuel).attempts ≤ fuel := by
  intro fuel
  induction fuel with
  | zero => intro attempt; simp [requestLoop]
  | succ f ih =>
    intro attempt
    simp only [requestLoop]
    cases hoc : oc attempt with
    | response r => simp
    | timeout =>
      by_cases ha : attempt = mr
      · simp [ha]
      · simp only [if_neg ha]
        exact Nat.succ_le_succ (ih (attempt + 1))
    | netError d =>
      by_cases ha : attempt = mr
      · simp [ha]
      · simp only [if_neg ha]
        exact Nat.succ_le_succ (ih (attempt + 1))

theorem requestLoop_attempts_pos (oc : Nat → AttemptOutcome) (mr fuel attempt : Nat)
    (h : 1 ≤ fuel) : 1 ≤ (requestLoop oc mr attempt fuel).attempts := by
  cases fuel with
  | zero => omega
  | succ f =>
    simp only [requestLoop]
    cases hoc : oc attempt with
    | response r => simp
    | timeout =>
      by_cases ha : attempt = mr
      · simp [ha]
      · simp only [if_neg ha]
        omega
    | netError d =>
      by_cases ha : attempt = mr
      · simp [ha]
      · simp only [if_neg ha]
        omega

theorem requestLoop_succ (oc : Nat → AttemptOutcome) (mr attempt fuel : Nat) :
    requestLoop oc mr attempt (fuel + 1)
      = match oc attempt with
        | .response r => ⟨handle_response r, [], 1⟩
        | .timeout =>
          if attempt = mr then ⟨.exc requestTimeoutError, [], 1⟩
          else ⟨(requestLoop oc mr (attempt + 1) fuel).result,
                2 ^ attempt :: (requestLoop oc mr (attempt + 1) fuel).delays,
                (requestLoop oc mr (attempt + 1) fuel).attempts + 1⟩
        | .netError d =>
          if attempt = mr then ⟨.exc (networkFailureError d), [], 1⟩
          else ⟨(requestLoop oc mr (attempt + 1) fuel).result,
                2 ^ attempt :: (requestLoop oc mr (attempt + 1) fuel).delays,
                (requestLoop oc mr (attempt + 1) fuel).attempts + 1⟩ := by
  simp only [requestLoop]

theorem requestLoop_response_step (oc : Nat → AttemptOutcome)
    (mr attempt fuel : Nat) (r : Resp) (hoc : oc attempt = .response r) :
    requestLoop oc mr attempt (fuel + 1) = ⟨handle_response r, [], 1⟩ := by
  rw [requestLoop_succ, hoc]

theorem requestLoop_timeout_last (oc : Nat → AttemptOutcome)
    (mr attempt fuel : Nat) (hoc : oc attempt = .timeout) (ha : attempt = mr) :
    requestLoop oc mr attempt (fuel + 1) = ⟨.exc requestTimeoutError, [], 1⟩ := by
  rw [requestLoop_succ, hoc]
  exact if_pos ha

theorem requestLoop_timeout_step (oc : Nat → AttemptOutcome)
    (mr attempt fuel : Nat) (hoc : oc attempt = .timeout) (ha : ¬(attempt = mr)) :
    requestLoop oc mr attempt (fuel + 1)
      = ⟨(requestLoop oc mr (attempt + 1) fuel).result,
         2 ^ attempt :: (requestLoop oc mr (attempt + 1) fuel).delays,
         (requestLoop oc mr (attempt + 1) fuel).attempts + 1⟩ := by
  rw [requestLoop_succ, hoc]
  exact if_neg ha

theorem requestLoop_netError_last (oc : Nat → AttemptOutcome)
    (mr attempt fuel : Nat) (d : String) (hoc : oc attempt = .netError d)
    (ha : attempt = mr) :
    requestLoop oc mr attempt (fuel + 1) = ⟨.exc (networkFailureError d), [], 1⟩ := by
  rw [requestLoop_succ, hoc]
  exact if_pos ha

theorem requestLoop_netError_step (oc : Nat → AttemptOutcome)
    (mr attempt fuel : Nat) (d : String) (hoc : oc attempt = .netError d)
    (ha : ¬(attempt = mr)) :
    requestLoop oc mr attempt (fuel + 1)
      = ⟨(requestLoop oc mr (attempt + 1) fuel).result,
         2 ^ attempt :: (requestLoop oc mr (attempt + 1) fuel).delays,
         (requestLoop oc mr (attempt + 1) fuel).attempts + 1⟩ := by
  rw [requestLoop_succ, hoc]
  exact if_neg ha

theorem requestLoop_delays_shape (oc : Nat → AttemptOutcome) (mr : Nat) :
    ∀ fuel attempt, attempt + fuel = mr + 1 →
      (requestLoop oc mr attempt fuel).delays
        = backoffDelays attempt ((requestLoop oc mr attempt fuel).attempts - 1) := by
  intro fuel
  induction fuel with
  | zero =>
    intro attempt _
    simp [requestLoop, backoffDelays]
  | succ f ih =>
    intro attempt h
    simp only [requestLoop]
    cases hoc : oc attempt with
    | response r => simp [backoffDelays]
    | timeout =>
      by_cases ha : attempt = mr
      · simp [ha, backoffDelays]
      · have hf : 1 ≤ f := by omega
        have hpos := requestLoop_attempts_pos oc mr f (attempt + 1) hf
        obtain ⟨n, hn⟩ : ∃ n, (requestLoop oc mr (attempt + 1) f).attempts = n + 1 :=
          ⟨(requestLoop oc mr (attempt + 1) f).attempts - 1, by omega⟩
        have hrest := ih (attempt + 1) (by omega)
        simp only [if_neg ha, hn, Nat.add_sub_cancel]
        rw [backoffDelays_succ, hrest, hn, Nat.add_sub_cancel]
    | netError d =>
      by_cases ha : attempt = mr
      · simp [ha, backoffDelays]
      · have hf : 1 ≤ f := by omega
        have hpos := requestLoop_attempts_pos oc mr f (attempt + 1) hf
        obtain ⟨n, hn⟩ : ∃ n, (requestLoop oc mr (attempt + 1) f).attempts = n + 1 :=
          ⟨(requestLoop oc mr (attempt + 1) f).attempts - 1, by omega⟩
        have hrest := ih (attempt + 1) (by omega)
        simp only [if_neg ha, hn, Nat.add_sub_cancel]
        rw [backoffDelays_succ, hrest, hn, Nat.add_sub_cancel]

theorem requestLoop_all_timeout (oc : Nat → AttemptOutcome) (mr : Nat)
    (hall : ∀ i, i ≤ mr → oc i = .timeout) :
    ∀ f attempt, attempt + f = mr →
      requestLoop oc mr attempt (f + 1)
        = ⟨.exc requestTimeoutError, backoffDelays attempt f, f + 1⟩ := by
  intro f
  induction f with
  | zero =>
    intro attempt h
    have ha : attempt = mr := by omega
    rw [requestLoop_timeout_last oc mr attempt 0 (hall attempt (by omega)) ha]
    simp [backoffDelays]
  | succ f ih =>
    intro attempt h
    have ha : ¬(attempt = mr) := by omega
    rw [requestLoop_timeout_step oc mr attempt (f + 1) (hall attempt (by omega)) ha,
        ih (attempt + 1) (by omega), backoffDelays_succ]

theorem requestLoop_all_netError (oc : Nat → AttemptOutcome) (mr : Nat) (d : String)
    (hall : ∀ i, i ≤ mr → oc i = .netError d) :
    ∀ f attempt, attempt + f = mr →
      requestLoop oc mr attempt (f + 1)
        = ⟨.exc (networkFailureError d), backoffDelays attempt f, f + 1⟩ := by
  intro f
  induction f with
  | zero =>
    intro attempt h
    have ha : attempt = mr := by omega
    rw [requestLoop_netError_last oc mr attempt 0 d (hall attempt (by omega)) ha]
    simp [backoffDelays]
  | succ f ih =>
    intro attempt h
    have ha : ¬(attempt = mr) := by omega
    rw [requestLoop_netError_step oc mr attempt (f + 1) d (hall attempt (by omega)) ha,
        ih (attempt + 1) (by omega), backoffDelays_succ]

theorem requestLoop_response_stops (oc : Nat → AttemptOutcome) (mr i : Nat) (r : Resp)
    (hi : i ≤ mr) (hresp : oc i = .response r) :
    ∀ f attempt, attempt + f = mr → attempt ≤ i →
      (requestLoop oc mr attempt (f + 1)).attempts ≤ i - attempt + 1 := by
  intro f
  induction f with
  | zero =>
    intro attempt h hai
    have hia : attempt = i := by omega
    subst hia
    rw [requestLoop_response_step oc mr attempt 0 r hresp]
    simp
  | succ f ih =>
    intro attempt h hai
    by_cases hia : attempt = i
    · subst hia
      rw [requestLoop_response_step oc mr attempt (f + 1) r hresp]
      simp
    · have hlt : attempt < i := by omega
      have ha : ¬(attempt = mr) := by omega
      cases hoc : oc attempt with
      | response r' =>
        rw [requestLoop_response_step oc mr attempt (f + 1) r' hoc]
        simp
      | timeout =>
        rw [requestLoop_timeout_step oc mr attempt (f + 1) hoc ha]
        have := ih (attempt + 1) (by omega) (by omega)
        simp only []
        omega
      | netError d =>
        rw [requestLoop_netError_step oc mr attempt (f + 1) d hoc ha]
        have := ih (attempt + 1) (by omega) (by omega)
        simp only []
        omega

theorem requestLoop_response_exact (oc : Nat → AttemptOutcome) (mr i : Nat) (r : Resp)
    (hi : i ≤ mr) (hresp : oc i = .response r) :
    ∀ f attempt, attempt + f = mr → attempt ≤ i →
      (∀ j, attempt ≤ j → j < i → (oc j).isTransportFailure = true) →
      requestLoop oc mr attempt (f + 1)
        = ⟨handle_response r, backoffDelays attempt (i - attempt), i - attempt + 1⟩ := by
  intro f
  induction f with
  | zero =>
    intro attempt h hai _
    have hia : attempt = i := by omega
    subst hia
    rw [requestLoop_response_step oc mr attempt 0 r hresp]
    simp [backoffDelays]
  | succ f ih =>
    intro attempt h hai htrans
    by_cases hia : attempt = i
    · subst hia
      rw [requestLoop_response_step oc mr attempt (f + 1) r hresp]
      simp [backoffDelays]
    · have hlt : attempt < i := by omega
      have ha : ¬(attempt = mr) := by omega
      have hstep : i - attempt = (i - (attempt + 1)) + 1 := by omega
      cases hoc : oc attempt with
      | response r' =>
        have := htrans attempt (by omega) hlt
        rw [hoc] at this
        simp [AttemptOutcome.isTransportFailure] at this
      | timeout =>
        rw [requestLoop_timeout_step oc mr attempt (f + 1) hoc ha,
            ih (attempt + 1) (by omega) (by omega)
              (fun j hj hj' => htrans j (by omega) hj'),
            hstep, backoffDelays_succ]
      | netError d =>
        rw [requestLoop_netError_step oc mr attempt (f + 1) d hoc ha,
            ih (attempt + 1) (by omega) (by omega)
              (fun j hj hj' => htrans j (by omega) hj'),
            hstep, backoffDelays_succ]

theorem requestLoop_fuel_irrelevant (oc : Nat → AttemptOutcome) (mr : Nat) :
    ∀ f attempt g, attempt + f = mr →
      requestLoop oc mr attempt (f + 1 + g) = requestLoop oc mr attempt (f + 1) := by
  intro f
  induction f with
  | zero =>
    intro attempt g h
    have ha : attempt = mr := by omega
    rw [show 0 + 1 + g = g + 1 by omega]
    cases hoc : oc attempt with
    | response r =>
      rw [requestLoop_response_step oc mr attempt g r hoc,
          requestLoop_response_step oc mr attempt 0 r hoc]
    | timeout =>
      rw [requestLoop_timeout_last oc mr attempt g hoc ha,
          requestLoop_timeout_last oc mr attempt 0 hoc ha]
    | netError d =>
      rw [requestLoop_netError_last oc mr attempt g d hoc ha,
          requestLoop_netError_last oc mr attempt 0 d hoc ha]
  | succ f ih =>
    intro attempt g h
    have ha : ¬(attempt = mr) := by omega
    rw [show f + 1 + 1 + g = (f + 1 + g) + 1 by omega]
    cases hoc : oc attempt with
    | response r =>
      rw [requestLoop_response_step oc mr attempt (f + 1 + g) r hoc,
          requestLoop_response_step oc mr attempt (f + 1) r hoc]
    | timeout =>
      rw [requestLoop_timeout_step oc mr attempt (f + 1 + g) hoc ha,
          requestLoop_timeout_step oc mr attempt (f + 1) hoc ha,
          ih (attempt + 1) g (by omega)]
    | netError d =>
      rw [requestLoop_netError_step oc mr attempt (f + 1 + g) d hoc ha,
          requestLoop_netError_step oc mr attempt (f + 1) d hoc ha,
          ih (attempt + 1) g (by omega)]

theorem handle_response_exc_isSome (r : Resp) (e : YouGileExc)
    (h : handle_response r = .exc e) : e.status_code.isSome = true := by
  simp only [handle_response] at h
  split at h
  · split at h <;> cases h
  · split at h
    · split at h
      · cases h; rfl
      · split at h
        · cases h; rfl
        · split at h
          · cases h; rfl
          · split at h
            · cases h; rfl
            · cases h; rfl
    · cases h

theorem network_msg_ne (d : String) :
    "Network error: " ++ d ≠ "Max retries exceeded" := by
  intro h
  have h1 := congrArg String.data h
  rw [String.data_append] at h1
  have h2 : ("Network error: " : String).data
      = 'N' :: ("etwork error: " : String).data := by decide
  rw [h2] at h1
  have h3 : ("Max retries exceeded" : String).data
      = 'M' :: ("ax retries exceeded" : String).data := by decide
  rw [h3] at h1
  simp at h1

theorem requestLoop_result_ne_fallback (oc : Nat → AttemptOutcome) (mr : Nat) :
    ∀ f attempt, attempt + f = mr →
      (requestLoop oc mr attempt (f + 1)).result
        ≠ .exc maxRetriesExceededError := by
  intro f
  induction f with
  | zero =>
    intro attempt h hcontra
    have ha : attempt = mr := by omega
    cases hoc : oc attempt with
    | response r =>
      rw [requestLoop_response_step oc mr attempt 0 r hoc] at hcontra
      have := handle_response_exc_isSome r maxRetriesExceededError hcontra
      simp [maxRetriesExceededError, mkYouGileError] at this
    | timeout =>
      rw [requestLoop_timeout_last oc mr attempt 0 hoc ha] at hcontra
      simp only [RequestResult.exc.injEq] at hcontra
      have hmsg := congrArg YouGileExc.message hcontra
      simp only [requestTimeoutError, maxRetriesExceededError, mkYouGileError] at hmsg
      have := Json.str.inj hmsg
      exact absurd this (by decide)
    | netError d =>
      rw [requestLoop_netError_last oc mr attempt 0 d hoc ha] at hcontra
      simp only [RequestResult.exc.injEq] at hcontra
      have hmsg := congrArg YouGileExc.message hcontra
      simp only [networkFailureError, maxRetriesExceededError, mkYouGileError] at hmsg
      exact network_msg_ne d (Json.str.inj hmsg)
  | succ f ih =>
    intro attempt h hcontra
    have ha : ¬(attempt = mr) := by omega
    cases hoc : oc attempt with
    | response r =>
      rw [requestLoop_response_step oc mr attempt (f + 1) r hoc] at hcontra
      have := handle_response_exc_isSome r maxRetriesExceededError hcontra
      simp [maxRetriesExceededError, mkYouGileError] at this
    | timeout =>
      rw [requestLoop_timeout_step oc mr attempt (f + 1) hoc ha] at hcontra
      exact ih (attempt + 1) (by omega) hcontra
    | netError d =>
      rw [requestLoop_netError_step oc mr attempt (f + 1) d hoc ha] at hcontra
      exact ih (attempt + 1) (by omega) hcontra

theorem pyStrip_ne_imp (a : String) (h : pyStrip a ≠ "") : a ≠ "" := by
  intro hh
  subst hh
  exact h rfl

theorem set_credentials_eq (st : AuthState) (a c : String) :
    AuthManager.set_credentials st a c
      = if pyStrip a = "" then .error (mkValidationError "API key cannot be empty")
        else if pyStrip c = "" then
          .error (mkValidationError "Company ID cannot be empty")
        else .ok ⟨some (pyStrip a), some (pyStrip c)⟩ := by
  unfold AuthManager.set_credentials
  by_cases ha : pyStrip a = ""
  · rw [if_pos (Or.inr ha), if_pos ha]
  · have ha' : ¬(a = "" ∨ pyStrip a = "") := by
      rintro (rfl | hh)
      · exact ha rfl
      · exact ha hh
    rw [if_neg ha', if_neg ha]
    by_cases hc : pyStrip c = ""
    · rw [if_pos (Or.inr hc), if_pos hc]
    · have hc' : ¬(c = "" ∨ pyStrip c = "") := by
        rintro (rfl | hh)
        · exact hc rfl
        · exact hc hh
      rw [if_neg hc', if_neg hc]

/-! ### Claim theorems -/

/-- C1: `request`'s loop makes at most `max_retries + 1` attempts; a retry
is triggered only by a transport failure on an attempt `i < max_retries`
and is preceded by a backoff delay of `2 ^ i`, so the delays slept are
exactly `2 ^ 0, …, 2 ^ (k - 2)` when `k` attempts run; when every attempt
times out the final attempt raises `YouGileError("Request timeout")`, and
when every attempt fails with a network error it raises
`YouGileError("Network error: <detail>")`, in both cases after exactly
`max_retries + 1` attempts with no further retry; both transport-failure
errors carry `status_code = None`, placing them outside the HTTP-status
error taxonomy. -/
theorem retry_policy_attempts_backoff_terminal (mr : Nat)
    (oc : Nat → AttemptOutcome) :
    (∀ initialized auth method path,
      (request initialized auth method path mr oc).attempts ≤ mr + 1)
    ∧ (runRetryLoop oc mr).attempts ≤ mr + 1
    ∧ (runRetryLoop oc mr).delays
        = (List.range ((runRetryLoop oc mr).attempts - 1)).map (fun k => 2 ^ k)
    ∧ ((∀ i, i ≤ mr → oc i = .timeout) →
        runRetryLoop oc mr
          = ⟨.exc requestTimeoutError,
             (List.range mr).map (fun k => 2 ^ k), mr + 1⟩)
    ∧ (∀ d, (∀ i, i ≤ mr → oc i = .netError d) →
        runRetryLoop oc mr
          = ⟨.exc (networkFailureError d),
             (List.range mr).map (fun k => 2 ^ k), mr + 1⟩)
    ∧ requestTimeoutError.status_code = none
    ∧ ∀ d, (networkFailureError d).status_code = none := by
  refine ⟨?_, requestLoop_attempts_le oc mr (mr + 1) 0, ?_, ?_, ?_, rfl, fun d => rfl⟩
  · intro initialized auth method path
    cases initialized with
    | false => simp [request]
    | true =>
      simp only [request]
      cases hsh : selectHeaders auth path with
      | error e => simp
      | ok hs => simpa using requestLoop_attempts_le oc mr (mr + 1) 0
  · unfold runRetryLoop
    rw [requestLoop_delays_shape oc mr (mr + 1) 0 (by omega), backoffDelays_zero]
  · intro hall
    unfold runRetryLoop
    rw [requestLoop_all_timeout oc mr hall mr 0 (by omega), backoffDelays_zero]
  · intro d hall
    unfold runRetryLoop
    rw [requestLoop_all_netError oc mr d hall mr 0 (by omega), backoffDelays_zero]

/-- C1 witness: with the default `max_retries = 3` and a transport that
times out on every attempt, the loop sleeps 1, 2, 4 and raises the
"Request timeout" error after 4 attempts. -/
theorem retry_policy_witness :
    runRetryLoop (fun _ => AttemptOutcome.timeout) settings.yougile_max_retries
      = ⟨.exc requestTimeoutError, [1, 2, 4], 4⟩ := by
  have h := (retry_policy_attempts_backoff_terminal settings.yougile_max_retries
      (fun _ => AttemptOutcome.timeout)).2.2.2.1 (fun i _ => rfl)
  rw [h]
  rfl

/-- C3: receiving an HTTP response (any status, 4xx/5xx included) on
attempt `i` ends the retry loop at attempt `i`: at most `i + 1` attempts
are made, and when attempts `0 … i - 1` were transport failures the loop
produces exactly `_handle_response` of that response after `i + 1`
attempts with the backoff delays `2 ^ 0 … 2 ^ (i - 1)` — an HTTP error
status never leads to a further attempt; only transport failures do. -/
theorem http_error_never_retried (mr : Nat) (oc : Nat → AttemptOutcome)
    (i : Nat) (r : Resp) (hi : i ≤ mr) (hresp : oc i = .response r) :
    (runRetryLoop oc mr).attempts ≤ i + 1
    ∧ ((∀ j, j < i → (oc j).isTransportFailure = true) →
        runRetryLoop oc mr
          = ⟨handle_response r, (List.range i).map (fun k => 2 ^ k), i + 1⟩) := by
  constructor
  · have h := requestLoop_response_stops oc mr i r hi hresp mr 0 (by omega) (by omega)
    simpa using h
  · intro htrans
    have h := requestLoop_response_exact oc mr i r hi hresp mr 0 (by omega)
      (by omega) (fun j _ hj => htrans j hj)
    unfold runRetryLoop
    rw [h]
    simp [backoffDelays_zero]

/-- C3 witness: a timeout followed by a 500 response: the loop stops at the
response after 2 attempts and one backoff delay of 1, raising the decoded
generic error — the 500 is not retried. -/
theorem http_error_never_retried_witness :
    runRetryLoop
        (fun n => if n = 0 then AttemptOutcome.timeout
          else AttemptOutcome.response ⟨500, none, "oops"⟩) 3
      = ⟨.exc (mkYouGileError (.str "oops") (some 500)
            (.obj [("error", .str "oops")])), [1], 2⟩ := by
  have h := (http_error_never_retried 3
      (fun n => if n = 0 then AttemptOutcome.timeout
        else AttemptOutcome.response ⟨500, none, "oops"⟩)
      1 ⟨500, none, "oops"⟩ (by omega) rfl).2
      (fun j hj => by
        have hj0 : j = 0 := by omega
        subst hj0
        rfl)
  rw [h]
  rfl

/-- C7: the post-loop `raise YouGileError("Max retries exceeded")` is
unreachable: the loop's result is never that error, and granting the loop
any number of extra iterations beyond `range(max_retries + 1)` leaves the
outcome unchanged — every loop-body iteration returns, raises a classified
error, raises the terminal transport error, or proceeds to the next
iteration. -/
theorem max_retries_fallback_unreachable (mr : Nat) (oc : Nat → AttemptOutcome) :
    (runRetryLoop oc mr).result ≠ .exc maxRetriesExceededError
    ∧ ∀ extra, requestLoop oc mr 0 (mr + 1 + extra) = runRetryLoop oc mr := by
  constructor
  · exact requestLoop_result_ne_fallback oc mr mr 0 (by omega)
  · intro extra
    exact requestLoop_fuel_irrelevant oc mr mr 0 extra (by omega)

/-- C7 witness: fallback-unreachability at the default configuration with
an always-timing-out transport. -/
theorem max_retries_fallback_unreachable_witness :
    (runRetryLoop (fun _ => AttemptOutcome.timeout)
        settings.yougile_max_retries).result
      ≠ .exc maxRetriesExceededError :=
  (max_retries_fallback_unreachable settings.yougile_max_retries
    (fun _ => AttemptOutcome.timeout)).1

/-- C2 counterexample: the claim fails as stated. (a) A 404 whose error
body decodes to the JSON array `[]` makes `_handle_response` call `.get`
on a non-dict value and fail with a Python `AttributeError` instead of
raising `NotFoundError`. (b) A 500 with an undecodable body and raw text
`"oops"` raises the generic error with message `"oops"` (the synthesized
payload's `error` field, i.e. the raw text), not `"HTTP 500"` as the
claim's message rule prescribes when the decoded payload has no `error`
field. -/
theorem handle_response_claim_cex :
    handle_response ⟨404, some (.arr []), "[]"⟩
        = .pyError "AttributeError: no attribute get"
    ∧ handle_response ⟨500, none, "oops"⟩
        = .exc (mkYouGileError (.str "oops") (some 500)
            (.obj [("error", .str "oops")]))
    ∧ handle_response ⟨500, none, "oops"⟩
        ≠ .exc (mkYouGileError (.str ("HTTP " ++ toString 500)) (some 500)
            (.obj [("error", .str "oops")])) := by
  refine ⟨rfl, rfl, ?_⟩
  intro h
  have h0 : handle_response ⟨500, none, "oops"⟩
      = .exc (mkYouGileError (.str "oops") (some 500)
          (.obj [("error", .str "oops")])) := rfl
  rw [h0] at h
  injection h with h1
  have h2 := congrArg YouGileExc.message h1
  simp only [mkYouGileError] at h2
  exact absurd (Json.str.inj h2) (by decide)

/-- C2 (amended): for every response with HTTP status outside {200, 201}
whose body either fails to decode or decodes to a JSON object,
`_handle_response` raises exactly the error of the spec's status table
(`classifyStatus`): 401/403/404/429 map to the corresponding typed error
whose constructor pins `status_code` to that code, and every other status
maps to the generic error carrying the original status code with the
error payload as `details`; the message is the payload's `"error"` field
when present and `"HTTP <code>"` otherwise, where an undecodable body
first synthesizes the payload `{"error": <raw text, or "HTTP <code>" when
the text is empty>}` (so for an undecodable body with non-empty text the
message is the raw text).  (A body that decodes to a non-object JSON
value instead fails with `AttributeError`; see the counterexample.) -/
theorem handle_response_classifies (status : Nat) (kvs : List (String × Json))
    (text : String) (h200 : status ≠ 200) (h201 : status ≠ 201) :
    handle_response ⟨status, some (.obj kvs), text⟩
      = classifyStatus status
          ((kvs.lookup "error").getD (.str ("HTTP " ++ toString status)))
          (.obj kvs)
    ∧ handle_response ⟨status, none, text⟩
      = classifyStatus status
          (.str (if text = "" then "HTTP " ++ toString status else text))
          (.obj [("error", .str (if text = "" then "HTTP " ++ toString status
                  else text))]) := by
  have hne : ¬((decide (status = 200) || decide (status = 201)) = true) := by
    simp [h200, h201]
  constructor
  · simp only [handle_response, classifyStatus]
    rw [if_neg hne]
  · simp only [handle_response, classifyStatus]
    rw [if_neg hne]
    simp [List.lookup]

/-- C2 witness (amended claim): a 404 whose decoded body is
`{"error": "task not found"}` raises `NotFoundError` with message
"task not found" — the spec's scenario. -/
theorem handle_response_classifies_witness :
    handle_response ⟨404, some (.obj [("error", Json.str "task not found")]), ""⟩
      = .exc (mkNotFoundError (.str "task not found")) := by
  have h := (handle_response_classifies 404
      [("error", Json.str "task not found")] "" (by decide) (by decide)).1
  rw [h]
  rfl

/-- C4: for HTTP 200 and 201, `_handle_response` returns the decoded body
unchanged when decoding succeeds, and `{"success": true, "data": <raw
text>}` when decoding fails; in neither case does it raise. -/
theorem success_response_passthrough (j : Json) (text : String) :
    handle_response ⟨200, some j, text⟩ = .ok j
    ∧ handle_response ⟨201, some j, text⟩ = .ok j
    ∧ handle_response ⟨200, none, text⟩
        = .ok (.obj [("success", .bool true), ("data", .str text)])
    ∧ handle_response ⟨201, none, text⟩
        = .ok (.obj [("success", .bool true), ("data", .str text)]) :=
  ⟨rfl, rfl, rfl, rfl⟩

/-- C5: requests whose path starts with "/auth/" or "/api-v2/auth/" use
`get_basic_headers` (always exactly the two JSON headers); any other path
uses `get_auth_headers`, which on a missing key raises
`AuthenticationError("No API key configured")` — and `request` then raises
it with zero attempts made, before any network activity — and on a stored
key returns exactly the Bearer header triple. -/
theorem header_selection_and_auth_guard (auth : AuthState)
    (method path : String) (mr : Nat) (oc : Nat → AttemptOutcome) :
    ((strStartsWith path "/auth/" || strStartsWith path "/api-v2/auth/") = true →
      selectHeaders auth path = .ok AuthManager.get_basic_headers)
    ∧ AuthManager.get_basic_headers
        = [("Content-Type", "application/json"), ("Accept", "application/json")]
    ∧ ((strStartsWith path "/auth/" || strStartsWith path "/api-v2/auth/") = false →
        auth.api_key = none →
        request true auth method path mr oc
          = ⟨.exc (mkAuthenticationError (.str "No API key configured")), [], 0⟩)
    ∧ (∀ t, (strStartsWith path "/auth/" || strStartsWith path "/api-v2/auth/") = false →
        auth.api_key = some t → t ≠ "" →
        selectHeaders auth path
          = .ok [("Authorization", "Bearer " ++ t),
                 ("Content-Type", "application/json"),
                 ("Accept", "application/json")]) := by
  refine ⟨?_, rfl, ?_, ?_⟩
  · intro hb
    simp [selectHeaders, hb]
  · intro hb hk
    simp [request, selectHeaders, hb, AuthManager.get_auth_headers, truthy, hk]
  · intro t hb hk ht
    simp [selectHeaders, hb, AuthManager.get_auth_headers, truthy, hk, ht]

/-- C5 witness: with no credential stored, `get("/users")` raises the
authentication error with zero attempts — before any network call. -/
theorem header_selection_witness :
    get true AuthManager.init "/users" settings.yougile_max_retries
        (fun _ => AttemptOutcome.timeout)
      = ⟨.exc (mkAuthenticationError (.str "No API key configured")), [], 0⟩ :=
  (header_selection_and_auth_guard AuthManager.init "GET" "/users"
    settings.yougile_max_retries (fun _ => AttemptOutcome.timeout)).2.2.1
    (by decide) rfl

/-- C6: `set_credentials` raises a `ValidationError` exactly when an
argument is empty or blank after trimming (the API-key check first, then
the company-id check), and otherwise replaces the credential with both
trimmed values in a single step; because both validation checks precede
both field assignments in the source, a raised error yields no new state —
the caller's stored credential is exactly what it was (no partial
update). -/
theorem set_credentials_validation (st : AuthState) (a c : String) :
    ((∃ e, AuthManager.set_credentials st a c = .error e)
      ↔ (pyStrip a = "" ∨ pyStrip c = ""))
    ∧ (pyStrip a = "" → AuthManager.set_credentials st a c
        = .error (mkValidationError "API key cannot be empty"))
    ∧ (pyStrip a ≠ "" → pyStrip c = "" → AuthManager.set_credentials st a c
        = .error (mkValidationError "Company ID cannot be empty"))
    ∧ (pyStrip a ≠ "" → pyStrip c ≠ "" → AuthManager.set_credentials st a c
        = .ok ⟨some (pyStrip a), some (pyStrip c)⟩) := by
  rw [set_credentials_eq]
  by_cases ha : pyStrip a = ""
  · simp [ha]
  · by_cases hc : pyStrip c = ""
    · simp [ha, hc]
    · simp [ha, hc]

/-- C6 witness: a valid key with a blank company id is rejected with the
company-id validation error. -/
theorem set_credentials_validation_witness :
    AuthManager.set_credentials AuthManager.init "key" " "
      = .error (mkValidationError "Company ID cannot be empty") :=
  (set_credentials_validation AuthManager.init "key" " ").2.2.1
    (by decide) (by decide)

/-- C8 counterexample: normalization is not invariant under prepending the
prefix to an arbitrary path: for `p = "/api-v2"` (already prefixed),
normalizing `"/api-v2" ++ p` yields `"/api-v2/api-v2"` while normalizing
`p` yields `"/api-v2"`. -/
theorem normalize_path_double_cex :
    normalize_path ("/api-v2" ++ "/api-v2") ≠ normalize_path "/api-v2" := by
  decide

/-- C8 (amended): normalization is idempotent for every path, and for a
bare path `p` — one that does not already start with `"/api-v2"` — the
prefixed form `"/api-v2" ++ p` and the bare form `p` normalize to the same
final URL. -/
theorem normalize_path_idempotent (p : String) :
    normalize_path (normalize_path p) = normalize_path p
    ∧ (strStartsWith p "/api-v2" = false →
        normalize_path ("/api-v2" ++ p) = normalize_path p) := by
  constructor
  · by_cases hp : strStartsWith p "/api-v2" = true
    · simp [normalize_path, hp]
    · have hp' : strStartsWith p "/api-v2" = false := by
        cases hsw : strStartsWith p "/api-v2"
        · rfl
        · exact absurd hsw hp
      simp [normalize_path, hp', strStartsWith_append]
  · intro hp
    simp [normalize_path, hp, strStartsWith_append]

/-- C8 witness: the bare path "/users" and its prefixed form normalize to
the same URL, and normalization of it is idempotent. -/
theorem normalize_path_idempotent_witness :
    normalize_path ("/api-v2" ++ "/users") = normalize_path "/users" :=
  (normalize_path_idempotent "/users").2 (by decide)

/-- C9: starting from the nullary construction used everywhere in the
repository, `set_credentials` and `clear_credentials` preserve the
invariant that the API key and the company id are either both set or both
unset, and `get_auth_headers` succeeds only in a state where both are set —
no partial credential state is ever used to build authenticated headers. -/
theorem credential_state_invariant (st : AuthState) (h : Reachable st) :
    ((st.api_key = none ∧ st.company_id = none)
      ∨ (st.api_key ≠ none ∧ st.company_id ≠ none))
    ∧ (∀ hdrs, AuthManager.get_auth_headers st = .ok hdrs →
        st.api_key ≠ none ∧ st.company_id ≠ none) := by
  induction h with
  | init =>
    refine ⟨Or.inl ⟨rfl, rfl⟩, ?_⟩
    intro hdrs habs
    simp [AuthManager.get_auth_headers, AuthManager.init, truthy] at habs
  | set st st' a c hr hok ih =>
    rw [set_credentials_eq] at hok
    by_cases ha : pyStrip a = ""
    · rw [if_pos ha] at hok
      cases hok
    · rw [if_neg ha] at hok
      by_cases hc : pyStrip c = ""
      · rw [if_pos hc] at hok
        cases hok
      · rw [if_neg hc] at hok
        injection hok with h'
        subst h'
        exact ⟨Or.inr ⟨by simp, by simp⟩, fun hdrs _ => ⟨by simp, by simp⟩⟩
  | clear st hr ih =>
    refine ⟨Or.inl ⟨rfl, rfl⟩, ?_⟩
    intro hdrs habs
    simp [AuthManager.get_auth_headers, AuthManager.clear_credentials, truthy] at habs

/-- C9 witness: the state reached by `set_credentials("key", "cid")` from a
fresh manager has both fields set. -/
theorem credential_state_invariant_witness :
    (⟨some "key", some "cid"⟩ : AuthState).api_key ≠ none
      ∧ (⟨some "key", some "cid"⟩ : AuthState).company_id ≠ none := by
  have h := (credential_state_invariant ⟨some "key", some "cid"⟩
      (Reachable.set AuthManager.init ⟨some "key", some "cid"⟩ "key" "cid"
        Reachable.init (by rfl))).1
  rcases h with ⟨h1, _⟩ | h2
  · cases h1
  · exact h2

/-- C10: calling `request` (and hence `get`/`post`/`put`/`delete`) on a
client whose connection pool was never opened via the context manager
raises `RuntimeError` with zero attempts and zero delays, for every
credential state and path — before header selection, credential checking,
or any network activity; the missing-credential authentication error is
therefore only reachable inside the context-manager scope. -/
theorem uninitialized_client_guard (auth : AuthState) (method path : String)
    (mr : Nat) (oc : Nat → AttemptOutcome) :
    request false auth method path mr oc
      = ⟨.runtimeError "Client not initialized. Use 'async with' context manager.",
         [], 0⟩
    ∧ get false auth path mr oc
      = ⟨.runtimeError "Client not initialized. Use 'async with' context manager.",
         [], 0⟩
    ∧ post false auth path mr oc
      = ⟨.runtimeError "Client not initialized. Use 'async with' context manager.",
         [], 0⟩
    ∧ put false auth path mr oc
      = ⟨.runtimeError "Client not initialized. Use 'async with' context manager.",
         [], 0⟩
    ∧ delete false auth path mr oc
      = ⟨.runtimeError "Client not initialized. Use 'async with' context manager.",
         [], 0⟩ :=
  ⟨rfl, rfl, rfl, rfl, rfl⟩
